import Mathlib

/-!
Shallow embedding of the pfrl option-critic agent and agent base classes.

Sources embedded:
- pfrl/agents/option_critic.py: OptionCriticNetwork, OC
- pfrl/agent.py: HRLAgent.act, AttributeSavingMixin.save/load traversal

Real-valued tensor entries are modelled as real numbers; stochastic draws
(np.random.rand, np.random.choice, Bernoulli and Categorical samples) are
modelled as explicit oracle arguments carrying the outcome of the draw.
Methods are modelled as state transformers returning the (possibly updated)
object together with the result, so that statements about which operations
mutate which fields are expressible.
-/

namespace PfrlSpec

/-- Value of the epsilon schedule read in OptionCriticNetwork.epsilon
(option_critic.py line 92): eps_min + (eps_start - eps_min) * exp(-num_steps / eps_decay). -/
noncomputable def epsilonValue (eps_start eps_min eps_decay : ℝ) (num_steps : ℕ) : ℝ :=
  eps_min + (eps_start - eps_min) * Real.exp (-(num_steps : ℝ) / eps_decay)

/-- torch sigmoid, used by get_terminations / predict_option_termination. -/
noncomputable def sigmoid (x : ℝ) : ℝ := 1 / (1 + Real.exp (-x))

/-- torch softmax along the last dimension (option_critic.py line 75). -/
noncomputable def softmax {n : ℕ} (logits : Fin n → ℝ) : Fin n → ℝ :=
  fun i => Real.exp (logits i) / ∑ j, Real.exp (logits j)

/-- Entropy of a categorical distribution with probability vector p:
minus the sum of p i * log (p i) (torch.distributions.Categorical.entropy). -/
noncomputable def entropyOf {n : ℕ} (p : Fin n → ℝ) : ℝ :=
  ∑ i, -(p i * Real.log (p i))

open Classical in
/-- torch argmax over the last dimension: an index attaining the maximum
(0 for an empty vector). -/
noncomputable def argmaxIdx {n : ℕ} (f : Fin n → ℝ) : ℕ :=
  if h : ∃ i : Fin n, ∀ j : Fin n, f j ≤ f i then (h.choose).val else 0

/-- OptionCriticNetwork state (option_critic.py lines 30-47).
nobs = raw observation width, d = feature_output_size, nopt = num_options,
nact = num_actions.  The three sub-networks are opaque functions; options_W
and options_b are the per-option linear action heads; num_steps is the
epsilon-schedule step counter.  The device tag is dropped (no-op in the
real-number model). -/
structure OptionCriticNetwork (nobs d nopt nact : ℕ) where
  eps_start : ℝ
  eps_min : ℝ
  eps_decay : ℝ
  num_steps : ℕ
  features : (Fin nobs → ℝ) → Fin d → ℝ
  terminations : (Fin d → ℝ) → Fin nopt → ℝ
  Q : (Fin d → ℝ) → Fin nopt → ℝ
  options_W : Fin nopt → Fin d → Fin nact → ℝ
  options_b : Fin nopt → Fin nact → ℝ

/-- OptionCriticNetwork.__init__ (option_critic.py lines 30-47).  The Python
constructor can in principle raise, so construction is modelled as
Except-valued; the source body performs no validation and always succeeds,
setting num_steps to 0 and zero-initialising options_W and options_b. -/
def OptionCriticNetwork.init {nobs d nopt nact : ℕ}
    (featureNetwork : (Fin nobs → ℝ) → Fin d → ℝ)
    (terminationNetwork : (Fin d → ℝ) → Fin nopt → ℝ)
    (QNetwork : (Fin d → ℝ) → Fin nopt → ℝ)
    (eps_start eps_min eps_decay : ℝ) :
    Except String (OptionCriticNetwork nobs d nopt nact) :=
  Except.ok
    { eps_start := eps_start
      eps_min := eps_min
      eps_decay := eps_decay
      num_steps := 0
      features := featureNetwork
      terminations := terminationNetwork
      Q := QNetwork
      options_W := fun _ _ _ => 0
      options_b := fun _ _ => 0 }

/-- get_state (lines 49-53): apply the feature extractor; no mutation. -/
def OptionCriticNetwork.get_state {nobs d nopt nact : ℕ}
    (net : OptionCriticNetwork nobs d nopt nact) (obs : Fin nobs → ℝ) :
    (Fin d → ℝ) × OptionCriticNetwork nobs d nopt nact :=
  (net.features obs, net)

/-- get_Q (lines 55-57): apply the Q head; no mutation. -/
def OptionCriticNetwork.get_Q {nobs d nopt nact : ℕ}
    (net : OptionCriticNetwork nobs d nopt nact) (state : Fin d → ℝ) :
    (Fin nopt → ℝ) × OptionCriticNetwork nobs d nopt nact :=
  (net.Q state, net)

/-- get_terminations (lines 68-70): sigmoid of the termination head; no mutation. -/
noncomputable def OptionCriticNetwork.get_terminations {nobs d nopt nact : ℕ}
    (net : OptionCriticNetwork nobs d nopt nact) (state : Fin d → ℝ) :
    (Fin nopt → ℝ) × OptionCriticNetwork nobs d nopt nact :=
  (fun i => sigmoid (net.terminations state i), net)

/-- predict_option_termination (lines 59-66): the Bernoulli sample outcome is
the oracle argument draw; next_option is the Q-greedy option for the current
state; no mutation. -/
noncomputable def OptionCriticNetwork.predict_option_termination {nobs d nopt nact : ℕ}
    (net : OptionCriticNetwork nobs d nopt nact) (state : Fin d → ℝ)
    (current_option : Fin nopt) (draw : Bool) :
    (Bool × ℕ) × OptionCriticNetwork nobs d nopt nact :=
  ((draw, argmaxIdx (net.get_Q state).1), net)

/-- get_action (lines 72-82): logits = state @ options_W[option] + options_b[option],
softmax to a categorical distribution, one sample (the oracle argument),
returning the sampled index, its log-probability and the entropy; no mutation. -/
noncomputable def OptionCriticNetwork.get_action {nobs d nopt nact : ℕ}
    (net : OptionCriticNetwork nobs d nopt nact) (state : Fin d → ℝ)
    (option : Fin nopt) (sample : Fin nact) :
    (ℕ × ℝ × ℝ) × OptionCriticNetwork nobs d nopt nact :=
  let logits : Fin nact → ℝ :=
    fun j => (∑ i, state i * net.options_W option i j) + net.options_b option j
  let action_dist := softmax logits
  ((sample.val, Real.log (action_dist sample), entropyOf action_dist), net)

/-- greedy_option (lines 84-87): argmax of the Q-values; no mutation. -/
noncomputable def OptionCriticNetwork.greedy_option {nobs d nopt nact : ℕ}
    (net : OptionCriticNetwork nobs d nopt nact) (state : Fin d → ℝ) :
    ℕ × OptionCriticNetwork nobs d nopt nact :=
  (argmaxIdx (net.get_Q state).1, net)

/-- epsilon property read (lines 89-95): returns the schedule value computed
from the current counter, then increments num_steps by one as a side effect. -/
noncomputable def OptionCriticNetwork.epsilon {nobs d nopt nact : ℕ}
    (net : OptionCriticNetwork nobs d nopt nact) :
    ℝ × OptionCriticNetwork nobs d nopt nact :=
  (epsilonValue net.eps_start net.eps_min net.eps_decay net.num_steps,
   { net with num_steps := net.num_steps + 1 })

/-- Runtime state of the OC agent (option_critic.py lines 106-117).
oc_prime is the deepcopy target network (an independent copy, here by value);
the optimizer is an external collaborator and is not part of the state. -/
structure OC (nobs d nopt nact : ℕ) where
  oc : OptionCriticNetwork nobs d nopt nact
  oc_prime : OptionCriticNetwork nobs d nopt nact
  option : ℕ
  option_termination : Bool
  num_options : ℕ

/-- OC.__init__ (lines 106-117): option = 0, option_termination = True,
oc_prime = deepcopy(oc). -/
def OC.init {nobs d nopt nact : ℕ} (oc : OptionCriticNetwork nobs d nopt nact)
    (num_options : ℕ) : OC nobs d nopt nact :=
  { oc := oc
    oc_prime := oc
    option := 0
    option_termination := true
    num_options := num_options }

/-- Outcomes of the random draws consumed by one OC.act call:
rand is np.random.rand(), choice is the value drawn by
np.random.choice(num_options), sample is the categorical action sample
inside get_action. -/
structure ActRandom (nact : ℕ) where
  rand : ℝ
  choice : ℕ
  sample : Fin nact

/-- OC.act (option_critic.py lines 120-130).  Encodes the observation; if
option_termination is set, reads epsilon (advancing the schedule counter),
computes the greedy option and epsilon-greedily reselects self.option;
then samples an action from the current option's policy.  Indexing
options_W with an out-of-range option raises in Python, modelled as none.
The flag option_termination is never written by act. -/
noncomputable def OC.act {nobs d nopt nact : ℕ} (a : OC nobs d nopt nact)
    (obs : Fin nobs → ℝ) (r : ActRandom nact) :
    Option ℕ × OC nobs d nopt nact :=
  let state := (a.oc.get_state obs).1
  let a' :=
    if a.option_termination then
      let epsRead := a.oc.epsilon
      let g := (OptionCriticNetwork.greedy_option epsRead.2 state).1
      { a with
        oc := epsRead.2
        option := if r.rand < epsRead.1 then r.choice else g }
    else a
  let actionOut :=
    if h : a'.option < nopt then
      some (((a'.oc.get_action state ⟨a'.option, h⟩ r.sample).1).1)
    else none
  (actionOut, a')

/-- OC.observe (lines 132-133): body is a bare return; no state change. -/
def OC.observe {nobs d nopt nact : ℕ} (a : OC nobs d nopt nact)
    (obs : Fin nobs → ℝ) (reward : ℝ) (done reset : Bool) : OC nobs d nopt nact :=
  a

/-- OC.save (lines 138-139): takes no directory argument, body is a bare
return; nothing is persisted and no state changes. -/
def OC.save {nobs d nopt nact : ℕ} (a : OC nobs d nopt nact) : OC nobs d nopt nact :=
  a

/-- OC.load (lines 135-136): takes no directory argument, body is a bare
return; nothing is restored and no state changes. -/
def OC.load {nobs d nopt nact : ℕ} (a : OC nobs d nopt nact) : OC nobs d nopt nact :=
  a

/-- OC.get_statistics (lines 141-142): body is a bare return, i.e. Python
None; modelled as none (no list of (name, value) pairs is produced). -/
def OC.get_statistics {nobs d nopt nact : ℕ} (a : OC nobs d nopt nact) :
    Option (List (String × ℝ)) :=
  none

/-- OC.actor_loss_fn (lines 144-145): returns the constant 0. -/
def OC.actor_loss_fn {nobs d nopt nact : ℕ} (a : OC nobs d nopt nact) : ℝ :=
  0

/-- States of an OC agent reachable through its public lifecycle:
construction followed by any interleaving of act and observe calls. -/
inductive OC.Reachable {nobs d nopt nact : ℕ} : OC nobs d nopt nact → Prop where
  | init : ∀ (oc : OptionCriticNetwork nobs d nopt nact) (num_options : ℕ),
      OC.Reachable (OC.init oc num_options)
  | act : ∀ (a : OC nobs d nopt nact) (obs : Fin nobs → ℝ) (r : ActRandom nact),
      OC.Reachable a → OC.Reachable (a.act obs r).2
  | observe : ∀ (a : OC nobs d nopt nact) (obs : Fin nobs → ℝ) (reward : ℝ)
      (done reset : Bool),
      OC.Reachable a → OC.Reachable (a.observe obs reward done reset)

/-- Value of a saved attribute in the AttributeSavingMixin ownership graph:
Python None (skipped), a torch module leaf (saved via state_dict), or a
nested AttributeSavingMixin object identified by its object id. -/
inductive AttrVal where
  | noneVal
  | leaf
  | mixin (id : ℕ)
deriving DecidableEq

/-- The saveable-attribute ownership graph: each object id maps to its
saved_attributes list in declaration order. -/
structure SaveEnv where
  attrs : ℕ → List (String × AttrVal)

/-- Outcome of a save/load traversal with bounded fuel: normal completion,
the "Avoid an infinite loop" assertion firing, or fuel exhaustion (the
Python code would still be recursing at that depth). -/
inductive TraverseResult where
  | ok
  | assertFail
  | fuelOut
deriving DecidableEq

/-- AttributeSavingMixin.__save traversal (agent.py lines 162-179) over the
attribute list of one object.  anc is the ancestors list with the current
object already appended; a nested mixin attribute is first checked against
anc (the assertion at lines 171-173) and then recursed into via
attr_value.__save(..., ancestors), which keeps the accumulated ancestors. -/
def saveAttrs (env : SaveEnv) : ℕ → List (String × AttrVal) → List ℕ → TraverseResult
  | _ + 1, [], _ => .ok
  | fuel + 1, (_, .noneVal) :: rest, anc => saveAttrs env fuel rest anc
  | fuel + 1, (_, .leaf) :: rest, anc => saveAttrs env fuel rest anc
  | fuel + 1, (_, .mixin c) :: rest, anc =>
    if c ∈ anc then .assertFail
    else
      match saveAttrs env fuel (env.attrs c) (anc ++ [c]) with
      | .ok => saveAttrs env fuel rest anc
      | r => r
  | 0, _, _ => .fuelOut

/-- AttributeSavingMixin.__load traversal (agent.py lines 185-204).  Same
shape as saveAttrs except for the recursion at line 197: a nested mixin is
entered via attr_value.load(...), which restarts __load with an EMPTY
ancestors list, so the child only carries [c] as its ancestors. -/
def loadAttrs (env : SaveEnv) : ℕ → List (String × AttrVal) → List ℕ → TraverseResult
  | _ + 1, [], _ => .ok
  | fuel + 1, (_, .noneVal) :: rest, anc => loadAttrs env fuel rest anc
  | fuel + 1, (_, .leaf) :: rest, anc => loadAttrs env fuel rest anc
  | fuel + 1, (_, .mixin c) :: rest, anc =>
    if c ∈ anc then .assertFail
    else
      match loadAttrs env fuel (env.attrs c) ([] ++ [c]) with
      | .ok => loadAttrs env fuel rest anc
      | r => r
  | 0, _, _ => .fuelOut

/-- AttributeSavingMixin.save (agent.py lines 158-160): __save(dirname, []),
which appends self before iterating. -/
def saveTop (env : SaveEnv) (fuel : ℕ) (obj : ℕ) : TraverseResult :=
  saveAttrs env fuel (env.attrs obj) [obj]

/-- AttributeSavingMixin.load (agent.py lines 181-183): __load(dirname, []),
which appends self before iterating. -/
def loadTop (env : SaveEnv) (fuel : ℕ) (obj : ℕ) : TraverseResult :=
  loadAttrs env fuel (env.attrs obj) [obj]

/-- Ownership graph with a two-object cycle: object 0 owns object 1 through
attribute a, and object 1 owns object 0 back through attribute b. -/
def cycleEnv : SaveEnv :=
  { attrs := fun n =>
      match n with
      | 0 => [("a", AttrVal.mixin 1)]
      | 1 => [("b", AttrVal.mixin 0)]
      | _ => [] }

/-- Ownership graph with a directly self-referential attribute on object 0. -/
def selfEnv : SaveEnv :=
  { attrs := fun n =>
      match n with
      | 0 => [("me", AttrVal.mixin 0)]
      | _ => [] }

/-- Acyclic ownership tree: object 0 owns a leaf module and a nested mixin
object 1, which owns a leaf module and a skipped None attribute. -/
def chainEnv : SaveEnv :=
  { attrs := fun n =>
      match n with
      | 0 => [("model", AttrVal.leaf), ("sub", AttrVal.mixin 1)]
      | 1 => [("inner", AttrVal.leaf), ("opt", AttrVal.noneVal)]
      | _ => [] }

/-- Python exception raised by unimplemented abstract contracts. -/
inductive PyError where
  | notImplementedError
deriving DecidableEq

/-- Mutable state of an HRL agent relevant to its base-class methods. -/
structure HRLAgentState where
  training : Bool
deriving DecidableEq

/-- HRLAgent.act (agent.py lines 97-104): unconditionally raises
NotImplementedError; the agent state is returned untouched. -/
def HRLAgent.act (Obs Action : Type) (s : HRLAgentState) (obs : Obs) :
    Except PyError Action × HRLAgentState :=
  (Except.error PyError.notImplementedError, s)

/-- Concrete network fixture on the smallest dimensions, used to instantiate
theorems at explicit inputs. -/
noncomputable def testNet : OptionCriticNetwork 1 1 1 1 :=
  { eps_start := 1
    eps_min := 0
    eps_decay := 1
    num_steps := 0
    features := fun _ _ => 0
    terminations := fun _ _ => 0
    Q := fun _ _ => 0
    options_W := fun _ _ _ => 0
    options_b := fun _ _ => 0 }

/-- Second fixture differing from testNet only in eps_start. -/
noncomputable def testNet2 : OptionCriticNetwork 1 1 1 1 :=
  { eps_start := 2
    eps_min := 0
    eps_decay := 1
    num_steps := 0
    features := fun _ _ => 0
    terminations := fun _ _ => 0
    Q := fun _ _ => 0
    options_W := fun _ _ _ => 0
    options_b := fun _ _ => 0 }

/-- Concrete observation fixture. -/
def testObs : Fin 1 → ℝ := fun _ => 0

/-- Concrete random-draw fixture for one act call. -/
noncomputable def testRandom : ActRandom 1 :=
  { rand := 0
    choice := 0
    sample := 0 }

/-- Helper: act never writes the option_termination flag (there is no
assignment to it anywhere in OC.act). -/
theorem act_flag {nobs d nopt nact : ℕ} (a : OC nobs d nopt nact)
    (obs : Fin nobs → ℝ) (r : ActRandom nact) :
    (a.act obs r).2.option_termination = a.option_termination := by
  cases h : a.option_termination <;> simp [OC.act, h]

/-- Helper: every reachable OC agent state has option_termination = true,
since the constructor sets it and no method ever writes it. -/
theorem reachable_flag {nobs d nopt nact : ℕ} (a : OC nobs d nopt nact)
    (h : OC.Reachable a) : a.option_termination = true := by
  induction h with
  | init oc n => rfl
  | act a obs r _ ih => rw [act_flag a obs r]; exact ih
  | observe a obs reward done reset _ ih => exact ih

/-- Helper: the entropy of a softmax distribution is nonnegative, given an
inhabitant of the index type. -/
theorem entropyOf_softmax_nonneg {n : ℕ} (L : Fin n → ℝ) (i0 : Fin n) :
    0 ≤ entropyOf (softmax L) := by
  have hS : 0 < ∑ j, Real.exp (L j) :=
    Finset.sum_pos (fun j _ => Real.exp_pos _) ⟨i0, Finset.mem_univ i0⟩
  apply Finset.sum_nonneg
  intro i _
  have hp : 0 < softmax L i := div_pos (Real.exp_pos _) hS
  have hle : softmax L i ≤ 1 := by
    have h1 : Real.exp (L i) ≤ ∑ j, Real.exp (L j) :=
      Finset.single_le_sum (fun j _ => (Real.exp_pos (L j)).le) (Finset.mem_univ i)
    exact (div_le_one hS).mpr h1
  have hlog : Real.log (softmax L i) ≤ 0 := Real.log_nonpos hp.le hle
  simpa [mul_neg] using mul_nonneg hp.le (neg_nonneg.mpr hlog)

/-- Helper: on the two-object ownership cycle, the load traversal exhausts
any amount of fuel starting from either object without ever completing or
firing the assertion. -/
theorem load_cycle_spins : ∀ fuel : ℕ,
    loadAttrs cycleEnv fuel [("a", AttrVal.mixin 1)] [0] = TraverseResult.fuelOut ∧
    loadAttrs cycleEnv fuel [("b", AttrVal.mixin 0)] [1] = TraverseResult.fuelOut := by
  intro fuel
  induction fuel with
  | zero => exact ⟨rfl, rfl⟩
  | succ n ih =>
    constructor
    · show loadAttrs cycleEnv (n + 1) [("a", AttrVal.mixin 1)] [0] = TraverseResult.fuelOut
      rw [loadAttrs]
      have h1 : (1 : ℕ) ∈ ([0] : List ℕ) ↔ False := by simp
      rw [if_neg (by simp)]
      have : loadAttrs cycleEnv n (cycleEnv.attrs 1) ([] ++ [1]) = TraverseResult.fuelOut := by
        simpa [cycleEnv] using ih.2
      rw [this]
    · show loadAttrs cycleEnv (n + 1) [("b", AttrVal.mixin 0)] [1] = TraverseResult.fuelOut
      rw [loadAttrs]
      rw [if_neg (by simp)]
      have : loadAttrs cycleEnv n (cycleEnv.attrs 0) ([] ++ [0]) = TraverseResult.fuelOut := by
        simpa [cycleEnv] using ih.1
      rw [this]

/-- Claim C1 counterexample: calling act on a freshly constructed agent,
which is in AWAITING_OPTION_SELECTION (option_termination = true), does NOT
leave the agent with option_termination = false; the flag is still true
after the call, contradicting the claimed transition to OPTION_ACTIVE. -/
theorem act_does_not_clear_flag :
    ¬ (((OC.init testNet 1).act testObs testRandom).2.option_termination = false) := by
  simp [OC.act, OC.init]

/-- Claim C1 (amended): act never changes the option_termination flag.  When
the flag is true, act reads epsilon (advancing the schedule) and epsilon-
greedily reselects the stored option, but the agent remains in
AWAITING_OPTION_SELECTION, so every subsequent act call reselects again;
when the flag is false, act reuses the stored option and changes nothing. -/
theorem act_option_state_machine {nobs d nopt nact : ℕ} (a : OC nobs d nopt nact)
    (obs : Fin nobs → ℝ) (r : ActRandom nact) :
    (a.act obs r).2.option_termination = a.option_termination ∧
    (a.act obs r).2.option =
      (if a.option_termination then
        (if r.rand < (a.oc.epsilon).1 then r.choice
         else (OptionCriticNetwork.greedy_option (a.oc.epsilon).2
                ((a.oc.get_state obs).1)).1)
       else a.option) ∧
    (a.act obs r).2.oc = (if a.option_termination then (a.oc.epsilon).2 else a.oc) := by
  cases h : a.option_termination <;> simp [OC.act, h]

/-- Claim C2 counterexample: OC.save and OC.load are no-ops taking no
directory argument; saving one agent and loading into a second agent with
different parameters leaves the second agent's parameters unchanged, so the
round trip does not reproduce the saved parameters. -/
theorem save_load_no_roundtrip :
    OC.save (OC.init testNet 1) = OC.init testNet 1 ∧
    (OC.load (OC.init testNet2 1)).oc.eps_start ≠ (OC.init testNet 1).oc.eps_start := by
  refine ⟨rfl, ?_⟩
  simp only [OC.load, OC.init, testNet, testNet2]
  norm_num

/-- Claim C2 (amended): OC.save and OC.load take no directory argument and
are no-ops: they persist nothing and restore nothing, leaving the agent's
entire state (including all network parameters) unchanged. -/
theorem save_load_are_noops {nobs d nopt nact : ℕ} (a : OC nobs d nopt nact) :
    a.save = a ∧ a.load = a :=
  ⟨rfl, rfl⟩

/-- Claim C3 counterexample: constructing an OptionCriticNetwork with
eps_min = 2 greater than eps_start = 1, or with eps_decay = 0 (non-positive),
succeeds; no fatal configuration error is reported at construction. -/
theorem init_accepts_invalid_eps :
    (OptionCriticNetwork.init (fun _ _ => 0) (fun _ _ => 0) (fun _ _ => 0) 1 2 1 :
      Except String (OptionCriticNetwork 1 1 1 1)).isOk = true ∧
    (OptionCriticNetwork.init (fun _ _ => 0) (fun _ _ => 0) (fun _ _ => 0) 1 0.1 0 :
      Except String (OptionCriticNetwork 1 1 1 1)).isOk = true :=
  ⟨rfl, rfl⟩

/-- Claim C3 (amended): OptionCriticNetwork construction performs no
validation at all: it succeeds for every configuration, including those with
eps_min > eps_start or non-positive eps_decay, and in particular for every
configuration with eps_min ≤ eps_start and eps_decay > 0. -/
theorem init_always_succeeds {nobs d nopt nact : ℕ}
    (featureNetwork : (Fin nobs → ℝ) → Fin d → ℝ)
    (terminationNetwork : (Fin d → ℝ) → Fin nopt → ℝ)
    (QNetwork : (Fin d → ℝ) → Fin nopt → ℝ)
    (eps_start eps_min eps_decay : ℝ) :
    (OptionCriticNetwork.init featureNetwork terminationNetwork QNetwork
        eps_start eps_min eps_decay :
      Except String (OptionCriticNetwork nobs d nopt nact)).isOk = true :=
  rfl

/-- Claim C4: reading epsilon returns eps_min + (eps_start - eps_min) *
exp(-num_steps / eps_decay) computed from the counter value before the read
and increments num_steps by exactly one as its only side effect; every other
network operation leaves the network (and hence the counter) unchanged. -/
theorem epsilon_read_semantics {nobs d nopt nact : ℕ}
    (net : OptionCriticNetwork nobs d nopt nact) :
    net.epsilon = (epsilonValue net.eps_start net.eps_min net.eps_decay net.num_steps,
      { net with num_steps := net.num_steps + 1 }) ∧
    (∀ obs, (net.get_state obs).2 = net) ∧
    (∀ state, (net.get_Q state).2 = net) ∧
    (∀ state, (net.get_terminations state).2 = net) ∧
    (∀ state current_option draw,
      (net.predict_option_termination state current_option draw).2 = net) ∧
    (∀ state option sample, (net.get_action state option sample).2 = net) ∧
    (∀ state, (net.greedy_option state).2 = net) :=
  ⟨rfl, fun _ => rfl, fun _ => rfl, fun _ => rfl, fun _ _ _ => rfl,
   fun _ _ _ => rfl, fun _ => rfl⟩

/-- Claim C5 counterexample: with eps_min = eps_start = 1 (allowed by the
claim's hypothesis eps_min ≤ eps_start) and eps_decay = 1 > 0, the schedule
is constant, so epsilon is not strictly decreasing in the step counter. -/
theorem epsilon_constant_when_flat :
    (1 : ℝ) ≤ 1 ∧ (0 : ℝ) < 1 ∧ (0 : ℕ) < 1 ∧
    ¬ (epsilonValue 1 1 1 1 < epsilonValue 1 1 1 0) := by
  refine ⟨le_refl 1, one_pos, one_pos, ?_⟩
  simp [epsilonValue]

/-- Claim C5 (amended): for eps_min ≤ eps_start and eps_decay > 0 the
schedule stays within [eps_min, eps_start] for every step count and tends to
eps_min; it is strictly decreasing in the step counter exactly when
eps_min < eps_start (when eps_min = eps_start it is constant). -/
theorem epsilon_bounds_monotone_limit (eps_start eps_min eps_decay : ℝ)
    (h1 : eps_min ≤ eps_start) (h2 : 0 < eps_decay) :
    (∀ t : ℕ, eps_min ≤ epsilonValue eps_start eps_min eps_decay t ∧
      epsilonValue eps_start eps_min eps_decay t ≤ eps_start) ∧
    (eps_min < eps_start → ∀ s t : ℕ, s < t →
      epsilonValue eps_start eps_min eps_decay t <
        epsilonValue eps_start eps_min eps_decay s) ∧
    Filter.Tendsto (fun t : ℕ => epsilonValue eps_start eps_min eps_decay t)
      Filter.atTop (nhds eps_min) := by
  refine ⟨?_, ?_, ?_⟩
  · intro t
    have hnn : (0 : ℝ) ≤ (t : ℝ) := Nat.cast_nonneg t
    have harg : -(t : ℝ) / eps_decay ≤ 0 :=
      div_nonpos_of_nonpos_of_nonneg (neg_nonpos.mpr hnn) h2.le
    have hexp0 : 0 < Real.exp (-(t : ℝ) / eps_decay) := Real.exp_pos _
    have hexp1 : Real.exp (-(t : ℝ) / eps_decay) ≤ 1 := by
      calc Real.exp (-(t : ℝ) / eps_decay) ≤ Real.exp 0 := Real.exp_le_exp.mpr harg
        _ = 1 := Real.exp_zero
    have hd : 0 ≤ eps_start - eps_min := sub_nonneg.mpr h1
    have hlow := mul_nonneg hd hexp0.le
    have hhigh := mul_le_mul_of_nonneg_left hexp1 hd
    unfold epsilonValue
    constructor <;> nlinarith
  · intro hlt s t hst
    have hd : 0 < eps_start - eps_min := sub_pos.mpr hlt
    have hcast : (s : ℝ) < (t : ℝ) := by exact_mod_cast hst
    have harg : -(t : ℝ) / eps_decay < -(s : ℝ) / eps_decay :=
      (div_lt_div_iff_of_pos_right h2).mpr (neg_lt_neg hcast)
    have hexp : Real.exp (-(t : ℝ) / eps_decay) < Real.exp (-(s : ℝ) / eps_decay) :=
      Real.exp_lt_exp.mpr harg
    have := mul_lt_mul_of_pos_left hexp hd
    unfold epsilonValue
    linarith
  · have h4 : Filter.Tendsto (fun t : ℕ => (t : ℝ) / eps_decay)
        Filter.atTop Filter.atTop :=
      Filter.Tendsto.atTop_div_const h2 tendsto_natCast_atTop_atTop
    have h5 := Filter.tendsto_neg_atTop_atBot.comp h4
    have h3 : Filter.Tendsto (fun t : ℕ => -(t : ℝ) / eps_decay)
        Filter.atTop Filter.atBot :=
      Filter.Tendsto.congr (fun t => by simp [Function.comp, neg_div]) h5
    have h6 : Filter.Tendsto (fun t : ℕ => Real.exp (-(t : ℝ) / eps_decay))
        Filter.atTop (nhds 0) := Real.tendsto_exp_atBot.comp h3
    have h7 := (h6.const_mul (eps_start - eps_min)).const_add eps_min
    simpa [epsilonValue] using h7

/-- Claim C5 witness: the amended theorem applied at eps_start = 1,
eps_min = 0, eps_decay = 1, whose hypotheses hold. -/
theorem epsilon_bounds_monotone_limit_witness :
    (0 : ℝ) ≤ 1 ∧ (0 : ℝ) < 1 ∧
    ((∀ t : ℕ, (0 : ℝ) ≤ epsilonValue 1 0 1 t ∧ epsilonValue 1 0 1 t ≤ 1) ∧
      ((0 : ℝ) < 1 → ∀ s t : ℕ, s < t →
        epsilonValue 1 0 1 t < epsilonValue 1 0 1 s) ∧
      Filter.Tendsto (fun t : ℕ => epsilonValue 1 0 1 t)
        Filter.atTop (nhds 0)) :=
  ⟨by norm_num, by norm_num,
   epsilon_bounds_monotone_limit 1 0 1 (by norm_num) (by norm_num)⟩

/-- Claim C6: from any reachable agent state, after observe is called with
done = true or reset = true, the immediately following act call performs a
fresh epsilon-greedy option selection: the epsilon schedule counter advances
by one and the resulting option is the epsilon-greedy choice (a random
option when rand < epsilon, the Q-greedy option otherwise), regardless of
any earlier termination sample.  (In this code the flag is true in every
reachable state, so every act call reselects.) -/
theorem episode_boundary_fresh_selection {nobs d nopt nact : ℕ}
    (a : OC nobs d nopt nact) (hre : OC.Reachable a)
    (obs : Fin nobs → ℝ) (reward : ℝ) (done reset : Bool)
    (hdr : done = true ∨ reset = true)
    (obs' : Fin nobs → ℝ) (r : ActRandom nact) :
    (a.observe obs reward done reset).option_termination = true ∧
    ((a.observe obs reward done reset).act obs' r).2.oc.num_steps =
      (a.observe obs reward done reset).oc.num_steps + 1 ∧
    ((a.observe obs reward done reset).act obs' r).2.option =
      (if r.rand < ((a.observe obs reward done reset).oc.epsilon).1 then r.choice
       else (OptionCriticNetwork.greedy_option
              ((a.observe obs reward done reset).oc.epsilon).2
              (((a.observe obs reward done reset).oc.get_state obs').1)).1) := by
  have hflag : a.option_termination = true := reachable_flag a hre
  refine ⟨hflag, ?_, ?_⟩ <;>
    simp [OC.observe, OC.act, hflag, OptionCriticNetwork.epsilon]

/-- Claim C6 witness: the theorem applied to a freshly constructed agent
and an observe call with done = true. -/
theorem episode_boundary_fresh_selection_witness :
    OC.Reachable (OC.init testNet 1) ∧ (true = true ∨ false = true) ∧
    (((OC.init testNet 1).observe testObs 0 true false).option_termination = true ∧
     ((((OC.init testNet 1).observe testObs 0 true false).act testObs testRandom).2.oc.num_steps =
       ((OC.init testNet 1).observe testObs 0 true false).oc.num_steps + 1) ∧
     (((OC.init testNet 1).observe testObs 0 true false).act testObs testRandom).2.option =
       (if testRandom.rand <
            (((OC.init testNet 1).observe testObs 0 true false).oc.epsilon).1 then
          testRandom.choice
        else (OptionCriticNetwork.greedy_option
               (((OC.init testNet 1).observe testObs 0 true false).oc.epsilon).2
               ((((OC.init testNet 1).observe testObs 0 true false).oc.get_state
                   testObs).1)).1)) :=
  ⟨OC.Reachable.init testNet 1, Or.inl rfl,
   episode_boundary_fresh_selection (OC.init testNet 1) (OC.Reachable.init testNet 1)
     testObs 0 true false (Or.inl rfl) testObs testRandom⟩

/-- Claim C7 (code bug): on the two-object ownership cycle, the load
traversal never halts with the cycle assertion for any amount of fuel (the
Python code recurses without bound, because load restarts the ancestors
list), while save on the same cycle fires the assertion; a directly
self-referential attribute is detected by both, and on an acyclic tree both
traversals terminate normally. -/
theorem attribute_saving_load_cycle_bug :
    (∀ fuel : ℕ, loadTop cycleEnv fuel 0 = TraverseResult.fuelOut) ∧
    saveTop cycleEnv 2 0 = TraverseResult.assertFail ∧
    saveTop selfEnv 1 0 = TraverseResult.assertFail ∧
    loadTop selfEnv 1 0 = TraverseResult.assertFail ∧
    saveTop chainEnv 10 0 = TraverseResult.ok ∧
    loadTop chainEnv 10 0 = TraverseResult.ok := by
  refine ⟨?_, by decide, by decide, by decide, by decide, by decide⟩
  intro fuel
  have h := (load_cycle_spins fuel).1
  simpa [loadTop, cycleEnv] using h

/-- Claim C8: for every state, valid option and every categorical sample
outcome, get_action returns the distribution over softmax(state · W[option]
+ b[option]) together with an action index in [0, num_actions), that
action's log-probability, and a nonnegative entropy. -/
theorem get_action_range_entropy {nobs d nopt nact : ℕ}
    (net : OptionCriticNetwork nobs d nopt nact) (state : Fin d → ℝ)
    (option : Fin nopt) (sample : Fin nact) :
    net.get_action state option sample =
      ((sample.val,
        Real.log (softmax (fun j => (∑ i, state i * net.options_W option i j) +
          net.options_b option j) sample),
        entropyOf (softmax (fun j => (∑ i, state i * net.options_W option i j) +
          net.options_b option j))),
       net) ∧
    ((net.get_action state option sample).1).1 < nact ∧
    0 ≤ ((net.get_action state option sample).1).2.2 :=
  ⟨rfl, sample.isLt,
   entropyOf_softmax_nonneg
     (fun j => (∑ i, state i * net.options_W option i j) + net.options_b option j)
     sample⟩

/-- Claim C9 counterexample: get_statistics on a concrete agent returns
Python None, not a list of (name, value) pairs. -/
theorem get_statistics_returns_none :
    OC.get_statistics (OC.init testNet 1) = none :=
  rfl

/-- Claim C9 (amended): OC.get_statistics always returns None; it never
produces a list of (name, value) pairs, not even the empty list. -/
theorem get_statistics_always_none {nobs d nopt nact : ℕ} (a : OC nobs d nopt nact) :
    a.get_statistics = none :=
  rfl

/-- Claim C10: the single-observation act inherited by HRL agents raises
NotImplementedError for every observation and leaves the agent state
unchanged. -/
theorem hrl_act_raises (Obs Action : Type) (s : HRLAgentState) (obs : Obs) :
    HRLAgent.act Obs Action s obs = (Except.error PyError.notImplementedError, s) :=
  rfl

end PfrlSpec
